import Mathlib

/-!
Shallow embedding of the landmark-tracking core of
`src/js/fullbody_working.js` (class `FullBodyTracker`).

Conventions of the embedding:
* JavaScript numbers are modelled by `ℚ` (all arithmetic the claims touch
  is exact at the inputs considered: sums, products, `1000/30`, `0.3`).
* A possibly-absent JavaScript value (`null`/`undefined`) is an `Option`.
* Array indexing `a[i]` is `List.get?` (out-of-range gives `none`, the
  falsy `undefined`).
* Calls on the 2D canvas context are reified as a list of `DrawOp`
  values, in the order the source issues them; calls to
  `updateStatus(type, status)` are reified as `(ModuleId × Status)` pairs.
-/

namespace FBT

/-- One detected landmark as MediaPipe delivers it: normalized `x`, `y`
in `[0,1]`, depth `z`, and a `visibility` score (meaningful for pose). -/
structure Landmark where
  x : ℚ
  y : ℚ
  z : ℚ
  visibility : ℚ
  deriving DecidableEq

/-- Colors the renderer selects (`#00FF00`, `#FFD700`, `#FF6B6B`,
`#4ECDC4`, `white`, `#FF0000`, `#FFFF00`). -/
inductive Color where
  | green
  | gold
  | red
  | teal
  | white
  | yellow
  deriving DecidableEq

/-- A primitive operation issued against the canvas 2D context. `line`
is a `moveTo`/`lineTo`/`stroke` triple, `circle` an `arc`/`fill` pair,
`label` a `fillText` of a numeric index. -/
inductive DrawOp where
  | line (x1 y1 x2 y2 : ℚ)
  | circle (x y r : ℚ)
  | label (idx : Nat) (x y : ℚ)
  | setStroke (c : Color)
  | setFill (c : Color)
  | setLineWidth (w : ℚ)
  | setFont (size : Nat)
  deriving DecidableEq

/-- Mirror transform, `flipX(x, width) { return width - x; }`. -/
def flipX (x width : ℚ) : ℚ :=
  width - x

/-- The fixed pose connection list of `drawPoseLandmarks` (arms, torso,
legs, hands). -/
def POSE_CONNECTIONS : List (Nat × Nat) :=
  [(11, 12), (11, 13), (13, 15), (12, 14), (14, 16),
   (11, 23), (12, 24), (23, 24),
   (23, 25), (25, 27), (27, 29), (29, 31),
   (24, 26), (26, 28), (28, 30), (30, 32),
   (15, 17), (15, 19), (15, 21),
   (16, 18), (16, 20), (16, 22)]

/-- Body of the `connections.forEach` loop of `drawPoseLandmarks`: the
segment for one connection is stroked only when both endpoint landmarks
exist and both visibilities exceed `0.3`. -/
def poseConnectionOps (lms : List Landmark) (w h : ℚ) (c : Nat × Nat) : List DrawOp :=
  match lms.get? c.1, lms.get? c.2 with
  | some s, some e =>
    if (3 / 10 : ℚ) < s.visibility ∧ (3 / 10 : ℚ) < e.visibility then
      [DrawOp.line (flipX (s.x * w) w) (s.y * h) (flipX (e.x * w) w) (e.y * h)]
    else []
  | _, _ => []

/-- Body of the key-point loop of `drawPoseLandmarks`: a dot of radius 6
for each landmark with visibility above `0.3`, plus a white index label
for the key indices `0, 11, 12, 23, 24` when debugging is on. -/
def posePointOps (showDebug : Bool) (w h : ℚ) (i : Nat) (lm : Landmark) : List DrawOp :=
  if (3 / 10 : ℚ) < lm.visibility then
    DrawOp.circle (flipX (lm.x * w) w) (lm.y * h) 6 ::
      (if showDebug = true ∧ i ∈ [0, 11, 12, 23, 24] then
        [DrawOp.setFill Color.white, DrawOp.setFont 12,
         DrawOp.label i (flipX (lm.x * w) w + 10) (lm.y * h - 10),
         DrawOp.setFill Color.green]
      else [])
  else []

/-- The `drawPoseLandmarks` method: bails out when the cached pose
result is absent or `showPose` is off, otherwise sets the green style
and draws connections then key points. -/
def drawPoseLandmarks (showPose showDebug : Bool) (poseLandmarks : Option (List Landmark))
    (w h : ℚ) : List DrawOp :=
  match poseLandmarks with
  | none => []
  | some lms =>
    if showPose then
      [DrawOp.setStroke Color.green, DrawOp.setLineWidth 3, DrawOp.setFill Color.green] ++
        (POSE_CONNECTIONS.map (poseConnectionOps lms w h)).flatten ++
        (lms.enum.map (fun p => posePointOps showDebug w h p.1 p.2)).flatten
    else []

/-- The fixed face-contour pairs of `drawFaceLandmarks`. -/
def FACE_CONTOURS : List (Nat × Nat) :=
  [(10, 338), (338, 297), (297, 332), (332, 284), (284, 251), (251, 389), (389, 356),
   (356, 454), (454, 323), (323, 361), (361, 288), (288, 397), (397, 365), (365, 379),
   (379, 378), (378, 400), (400, 377), (377, 152), (152, 148), (148, 176), (176, 149),
   (149, 150), (150, 136), (136, 172), (172, 58), (58, 132), (132, 93), (93, 234),
   (234, 127), (127, 162), (162, 21), (21, 54), (54, 103), (103, 67), (67, 109),
   (109, 10)]

/-- The `keyLandmarks` literal of `drawFaceLandmarks` enumerates every
index `0, 1, ..., 467` in order, which is exactly `List.range 468`. -/
def FACE_KEY_LANDMARKS : List Nat :=
  List.range 468

/-- Body of the `faceContours.forEach` loop: a contour segment is
stroked whenever both endpoints exist (no visibility test for faces). -/
def faceContourOps (lms : List Landmark) (w h : ℚ) (c : Nat × Nat) : List DrawOp :=
  match lms.get? c.1, lms.get? c.2 with
  | some s, some e =>
    [DrawOp.line (flipX (s.x * w) w) (s.y * h) (flipX (e.x * w) w) (e.y * h)]
  | _, _ => []

/-- Body of the `keyLandmarks.forEach` loop: a dot of radius 2 at every
existing landmark index. -/
def faceKeyPointOps (lms : List Landmark) (w h : ℚ) (i : Nat) : List DrawOp :=
  match lms.get? i with
  | some lm => [DrawOp.circle (flipX (lm.x * w) w) (lm.y * h) 2]
  | none => []

/-- The `drawFaceLandmarks` method: bails out when the cached face
result is absent or `showFace` is off, otherwise sets the gold style and
draws contours then key points. -/
def drawFaceLandmarks (showFace : Bool) (faceLandmarks : Option (List Landmark))
    (w h : ℚ) : List DrawOp :=
  match faceLandmarks with
  | none => []
  | some lms =>
    if showFace then
      [DrawOp.setStroke Color.gold, DrawOp.setLineWidth 1, DrawOp.setFill Color.gold] ++
        (FACE_CONTOURS.map (faceContourOps lms w h)).flatten ++
        (FACE_KEY_LANDMARKS.map (faceKeyPointOps lms w h)).flatten
    else []

/-- The fixed hand connection graph of `drawHandsLandmarks` (thumb,
fingers, palm). -/
def HAND_CONNECTIONS : List (Nat × Nat) :=
  [(0, 1), (1, 2), (2, 3), (3, 4),
   (0, 5), (5, 6), (6, 7), (7, 8),
   (0, 9), (9, 10), (10, 11), (11, 12),
   (0, 13), (13, 14), (14, 15), (15, 16),
   (0, 17), (17, 18), (18, 19), (19, 20),
   (5, 9), (9, 13), (13, 17)]

/-- Hand slot color: `handIndex === 0 ? '#FF6B6B' : '#4ECDC4'`. -/
def handColor (handIndex : Nat) : Color :=
  if handIndex = 0 then Color.red else Color.teal

/-- Body of the hand `connections.forEach` loop: stroked whenever both
endpoints exist. -/
def handConnectionOps (hand : List Landmark) (w h : ℚ) (c : Nat × Nat) : List DrawOp :=
  match hand.get? c.1, hand.get? c.2 with
  | some s, some e =>
    [DrawOp.line (flipX (s.x * w) w) (s.y * h) (flipX (e.x * w) w) (e.y * h)]
  | _, _ => []

/-- Body of the hand landmark loop: a dot of radius 4 at every landmark,
plus a white label for fingertip/wrist indices when debugging is on. -/
def handPointOps (showDebug : Bool) (color : Color) (w h : ℚ) (i : Nat)
    (lm : Landmark) : List DrawOp :=
  DrawOp.circle (flipX (lm.x * w) w) (lm.y * h) 4 ::
    (if showDebug = true ∧ i ∈ [0, 4, 8, 12, 16, 20] then
      [DrawOp.setFill Color.white, DrawOp.setFont 10,
       DrawOp.label i (flipX (lm.x * w) w + 8) (lm.y * h - 8),
       DrawOp.setFill color]
    else [])

/-- Drawing of one detected hand inside `this.handsLandmarks.forEach`. -/
def drawOneHand (showDebug : Bool) (w h : ℚ) (handIndex : Nat)
    (hand : List Landmark) : List DrawOp :=
  [DrawOp.setStroke (handColor handIndex), DrawOp.setLineWidth 2,
   DrawOp.setFill (handColor handIndex)] ++
    (HAND_CONNECTIONS.map (handConnectionOps hand w h)).flatten ++
    (hand.enum.map (fun p => handPointOps showDebug (handColor handIndex) w h p.1 p.2)).flatten

/-- The `drawHandsLandmarks` method. The guard
`!this.handsLandmarks || !this.showHands` reduces to `!this.showHands`
because the hands cache is always an array (see `onHandsResults`), and
arrays are truthy in JavaScript. -/
def drawHandsLandmarks (showHands showDebug : Bool)
    (handsLandmarks : List (List Landmark)) (w h : ℚ) : List DrawOp :=
  if showHands then
    (handsLandmarks.enum.map (fun p => drawOneHand showDebug w h p.1 p.2)).flatten
  else []

/-- The four `${type}-status` slots `updateStatus` can address. -/
inductive ModuleId where
  | pose
  | face
  | hands
  | camera
  deriving DecidableEq

/-- The status strings the tracker pushes. -/
inductive Status where
  | active
  | detected
  | searching
  | error
  deriving DecidableEq

/-- The `<span id="...-status">` element: its `textContent` and the
`style.color` `updateStatus` assigns. -/
structure StatusElement where
  textContent : Status
  color : Color
  deriving DecidableEq

/-- Color chosen by `updateStatus`: green for `active`/`detected`, red
for `error`, yellow otherwise. -/
def statusColor (status : Status) : Color :=
  if status = Status.active ∨ status = Status.detected then Color.green
  else if status = Status.error then Color.red
  else Color.yellow

/-- The `updateStatus(type, status)` method over a DOM modelled as a map
from module id to its optional status element: when
`document.getElementById` finds nothing, nothing happens. -/
def updateStatus (dom : ModuleId → Option StatusElement) (type : ModuleId)
    (status : Status) : ModuleId → Option StatusElement :=
  fun m =>
    if m = type then
      match dom type with
      | none => none
      | some _ => some ⟨status, statusColor status⟩
    else dom m

/-- Applies a sequence of `updateStatus` calls, in order. -/
def applyStatusPushes (dom : ModuleId → Option StatusElement)
    (pushes : List (ModuleId × Status)) : ModuleId → Option StatusElement :=
  pushes.foldl (fun d p => updateStatus d p.1 p.2) dom

/-- The result caches the completion callbacks write, together with the
show flags they consult. `handsLandmarks` is a plain list because the
constructor initializes it to `[]` and `onHandsResults` only ever stores
`results.multiHandLandmarks || []` (never null), see `result_cache_shapes`. -/
structure CbState where
  showPose : Bool
  showFace : Bool
  showHands : Bool
  poseLandmarks : Option (List Landmark)
  poseWorldLandmarks : Option (List Landmark)
  faceLandmarks : Option (List Landmark)
  handsLandmarks : List (List Landmark)
  deriving DecidableEq

/-- The fields of the raw `results` payload that `onPoseResults` reads. -/
structure PosePayload where
  poseLandmarks : Option (List Landmark)
  poseWorldLandmarks : Option (List Landmark)
  deriving DecidableEq

/-- The `updateTrackingStatus` method: derives `detected`/`searching`
per module from the current caches and issues the three `updateStatus`
calls in order. -/
def updateTrackingStatus (s : CbState) : List (ModuleId × Status) :=
  [(ModuleId.pose, if s.poseLandmarks.isSome then Status.detected else Status.searching),
   (ModuleId.face, if s.faceLandmarks.isSome then Status.detected else Status.searching),
   (ModuleId.hands, if 0 < s.handsLandmarks.length then Status.detected else Status.searching)]

/-- Outcome of one completion callback: the updated tracker state,
whether the callback invoked its module's draw routine, and the
`updateStatus` calls it issued (throttled console logging is a pure
console effect and is not modelled). -/
structure CbResult where
  state : CbState
  drew : Bool
  statusPushes : List (ModuleId × Status)
  deriving DecidableEq

/-- The `onPoseResults` callback: caches both landmark sets, redraws the
pose layer when `showPose`, then calls `updateTrackingStatus`. -/
def onPoseResults (s : CbState) (r : PosePayload) : CbResult :=
  let s1 : CbState :=
    { s with poseLandmarks := r.poseLandmarks, poseWorldLandmarks := r.poseWorldLandmarks }
  { state := s1, drew := s1.showPose, statusPushes := updateTrackingStatus s1 }

/-- The `onFaceResults` callback: caches
`results.multiFaceLandmarks?.[0] || null` (the first face or null) and
redraws the face layer when `showFace` and a face is cached. It issues
no `updateStatus` call. -/
def onFaceResults (s : CbState) (multiFaceLandmarks : Option (List (List Landmark))) :
    CbResult :=
  let fl := multiFaceLandmarks.bind List.head?
  let s1 : CbState := { s with faceLandmarks := fl }
  { state := s1, drew := s1.showFace && fl.isSome, statusPushes := [] }

/-- The `onHandsResults` callback: caches
`results.multiHandLandmarks || []` (in JavaScript an array — even the
empty one — is truthy, so the cache is the payload array whenever one is
present and `[]` only when the field is absent) and redraws the hands
layer when `showHands` and at least one hand is cached. It issues no
`updateStatus` call. -/
def onHandsResults (s : CbState) (multiHandLandmarks : Option (List (List Landmark))) :
    CbResult :=
  let hl := multiHandLandmarks.getD []
  let s1 : CbState := { s with handsLandmarks := hl }
  { state := s1, drew := s1.showHands && decide (0 < hl.length), statusPushes := [] }

/-- The scheduler-visible tracker state read by `processFrame`: the
frame clock, the stop flag, which adapters are non-null, the show flags,
and whether `videoElement.readyState >= 2`. -/
structure TrackerState where
  lastFrameTime : ℚ
  isTracking : Bool
  pose : Bool
  faceMesh : Bool
  hands : Bool
  showPose : Bool
  showFace : Bool
  showHands : Bool
  videoReady : Bool
  deriving DecidableEq

/-- `this.frameInterval = 1000 / this.targetFps` with `targetFps = 30`. -/
def frameInterval : ℚ :=
  1000 / 30

/-- Observable actions of one scheduler tick: the video render, the
three detector dispatches, and the catch-block log line. -/
inductive TickAction where
  | render
  | sendPose
  | sendFace
  | sendHands
  | logError
  deriving DecidableEq

/-- Outcome of one `processFrame` tick: the updated state, the actions
performed, and whether `requestAnimationFrame(processFrame)` was called
to schedule the next tick. -/
structure TickResult where
  state : TrackerState
  actions : List TickAction
  rescheduled : Bool
  deriving DecidableEq

/-- The try-block body of `processFrame` on an accepted tick: when the
video source is ready, render the frame, then dispatch it to each
adapter that is non-null and enabled, in pose/face/hands order. -/
def tickBody (s : TrackerState) : List TickAction :=
  if s.videoReady then
    TickAction.render ::
      ((if s.pose && s.showPose then [TickAction.sendPose] else []) ++
       (if s.faceMesh && s.showFace then [TickAction.sendFace] else []) ++
       (if s.hands && s.showHands then [TickAction.sendHands] else []))
  else []

/-- One tick of the `processFrame` loop. `failAfter = some k` models an
exception thrown inside the try block after `k` of its actions have
completed: the catch clause logs and the tail of the body is skipped,
but `requestAnimationFrame` still runs afterwards. The stop flag is
checked first; the frame-rate gate (`now - lastFrameTime <
frameInterval`) reschedules without side effects. -/
def processFrame (s : TrackerState) (now : ℚ) (failAfter : Option Nat) : TickResult :=
  if s.isTracking = false then
    { state := s, actions := [], rescheduled := false }
  else if now - s.lastFrameTime < frameInterval then
    { state := s, actions := [], rescheduled := true }
  else
    let s1 : TrackerState := { s with lastFrameTime := now }
    match failAfter with
    | none => { state := s1, actions := tickBody s1, rescheduled := true }
    | some k =>
      { state := s1, actions := (tickBody s1).take k ++ [TickAction.logError],
        rescheduled := true }

/-- Runs exception-free ticks at the given timestamps, collecting each
tick's actions. -/
def runTicks (s : TrackerState) : List ℚ → List (List TickAction)
  | [] => []
  | t :: ts =>
    let r := processFrame s t none
    r.actions :: runTicks r.state ts

/-- The scheduler state right after `startOptimizedTracking` begins,
with all modules up and the video ready: the constructor sets
`lastFrameTime = 0` and `startOptimizedTracking` sets `isTracking`. -/
def simState : TrackerState :=
  { lastFrameTime := 0, isTracking := true, pose := true, faceMesh := true,
    hands := true, showPose := true, showFace := true, showHands := true,
    videoReady := true }

/-- State threaded through `setupMediaPipeSequentially`: which adapters
are non-null, the show flags, the `updateStatus` calls issued so far,
and which of the later setup steps were reached. -/
structure InitState where
  pose : Bool
  faceMesh : Bool
  hands : Bool
  showPose : Bool
  showFace : Bool
  showHands : Bool
  statuses : List (ModuleId × Status)
  faceSetupRan : Bool
  handsSetupRan : Bool
  deriving DecidableEq

/-- Tracker fields as the constructor leaves them: adapters null, all
show flags on, no status pushed yet. -/
def initState0 : InitState :=
  { pose := false, faceMesh := false, hands := false, showPose := true,
    showFace := true, showHands := true, statuses := [], faceSetupRan := false,
    handsSetupRan := false }

/-- The `setupPose` method with its failure outcome as a flag: on
success the pose adapter is installed and `active` pushed; on failure
the catch clause pushes `error` and rethrows (second component `true`). -/
def setupPose (s : InitState) (fails : Bool) : InitState × Bool :=
  if fails then
    ({ s with statuses := s.statuses ++ [(ModuleId.pose, Status.error)] }, true)
  else
    ({ s with pose := true
              statuses := s.statuses ++ [(ModuleId.pose, Status.active)] }, false)

/-- The `setupFaceMesh` method: on failure the catch clause nulls the
adapter, clears `showFace`, pushes `error`, and does NOT rethrow. -/
def setupFaceMesh (s : InitState) (fails : Bool) : InitState :=
  let s1 : InitState := { s with faceSetupRan := true }
  if fails then
    { s1 with faceMesh := false
              showFace := false
              statuses := s1.statuses ++ [(ModuleId.face, Status.error)] }
  else
    { s1 with faceMesh := true
              statuses := s1.statuses ++ [(ModuleId.face, Status.active)] }

/-- The `setupHands` method: on failure the catch clause nulls the
adapter, clears `showHands`, pushes `error`, and does NOT rethrow. -/
def setupHands (s : InitState) (fails : Bool) : InitState :=
  let s1 : InitState := { s with handsSetupRan := true }
  if fails then
    { s1 with hands := false
              showHands := false
              statuses := s1.statuses ++ [(ModuleId.hands, Status.error)] }
  else
    { s1 with hands := true
              statuses := s1.statuses ++ [(ModuleId.hands, Status.active)] }

/-- The `setupMediaPipeSequentially` method starting from the
constructor state: pose, then face, then hands, in order. A `setupPose`
exception propagates immediately (second component `true`), in which
case the face and hands setups never run. -/
def setupSequentially (poseFails faceFails handsFails : Bool) : InitState × Bool :=
  match setupPose initState0 poseFails with
  | (s1, true) => (s1, true)
  | (s1, false) => (setupHands (setupFaceMesh s1 faceFails) handsFails, false)

/-- Scheduler state induced by a completed initialization, for relating
setup outcomes to dispatch behavior. -/
def trackerOfInit (s : InitState) (lastFrameTime : ℚ) (videoReady : Bool) : TrackerState :=
  { lastFrameTime := lastFrameTime, isTracking := true, pose := s.pose,
    faceMesh := s.faceMesh, hands := s.hands, showPose := s.showPose,
    showFace := s.showFace, showHands := s.showHands, videoReady := videoReady }

/-- A sample landmark for concrete scenarios. -/
def demoLm : Landmark :=
  ⟨1 / 2, 1 / 2, 0, 1⟩

/-- Callback state as the constructor leaves it: all show flags on, all
caches empty. -/
def cbDemo : CbState :=
  { showPose := true, showFace := true, showHands := true, poseLandmarks := none,
    poseWorldLandmarks := none, faceLandmarks := none, handsLandmarks := [] }

/-- Callback state after a hands setup failure: `showHands` cleared,
the hands cache still the constructor's `[]`. -/
def cbAfterHandsFailure : CbState :=
  { cbDemo with showHands := false }

/-- An empty pose payload (no person in frame). -/
def emptyPosePayload : PosePayload :=
  ⟨none, none⟩

/-- Status DOM right after a hands setup failure: the hands slot shows
`error` in red, the other slots their setup-time `active`. -/
def domAfterHandsFailure : ModuleId → Option StatusElement :=
  fun m =>
    match m with
    | ModuleId.hands => some ⟨Status.error, Color.red⟩
    | _ => some ⟨Status.active, Color.green⟩

/-- A DOM with no status elements at all (headless operation). -/
def headlessDom : ModuleId → Option StatusElement :=
  fun _ => none

/-- Thirteen fully visible landmarks, enough to give the `(11, 12)`
connection both endpoints. -/
def demoPoseLms : List Landmark :=
  List.replicate 13 ⟨1 / 2, 1 / 2, 0, 1⟩

/-- C1: for every landmark coordinate `x` in `[0,1]` and canvas width
`W`, the mirror transform the renderer applies to the denormalized
position, `flipX(x*W, W)`, equals `W - x*W`, and applying it twice
returns `x*W` (the mirror is self-inverse). -/
theorem flipX_mirror_self_inverse (x W : ℚ) (hx0 : 0 ≤ x) (hx1 : x ≤ 1) :
    flipX (x * W) W = W - x * W ∧ flipX (flipX (x * W) W) W = x * W := by
  constructor
  · rfl
  · show W - (W - x * W) = x * W
    ring

/-- Witness for `flipX_mirror_self_inverse` at `x = 1/2`, `W = 640`. -/
theorem flipX_mirror_self_inverse_witness :
    (0 : ℚ) ≤ 1 / 2 ∧ (1 / 2 : ℚ) ≤ 1 ∧
      (flipX ((1 / 2 : ℚ) * 640) 640 = 640 - (1 / 2 : ℚ) * 640 ∧
        flipX (flipX ((1 / 2 : ℚ) * 640) 640) 640 = (1 / 2 : ℚ) * 640) :=
  ⟨by norm_num, by norm_num,
    flipX_mirror_self_inverse (1 / 2) 640 (by norm_num) (by norm_num)⟩

/-- Equation for `poseConnectionOps` when both endpoints exist. -/
theorem poseConnectionOps_get_some (lms : List Landmark) (w h : ℚ) (c : Nat × Nat)
    (s e : Landmark) (h1 : lms.get? c.1 = some s) (h2 : lms.get? c.2 = some e) :
    poseConnectionOps lms w h c =
      if (3 / 10 : ℚ) < s.visibility ∧ (3 / 10 : ℚ) < e.visibility then
        [DrawOp.line (flipX (s.x * w) w) (s.y * h) (flipX (e.x * w) w) (e.y * h)]
      else [] := by
  unfold poseConnectionOps
  rw [h1, h2]

/-- Equation for `poseConnectionOps` when the start endpoint is missing. -/
theorem poseConnectionOps_get_none_left (lms : List Landmark) (w h : ℚ) (c : Nat × Nat)
    (h1 : lms.get? c.1 = none) : poseConnectionOps lms w h c = [] := by
  unfold poseConnectionOps
  rw [h1]

/-- Equation for `poseConnectionOps` when the end endpoint is missing. -/
theorem poseConnectionOps_get_none_right (lms : List Landmark) (w h : ℚ) (c : Nat × Nat)
    (h2 : lms.get? c.2 = none) : poseConnectionOps lms w h c = [] := by
  unfold poseConnectionOps
  rw [h2]
  cases lms.get? c.1 <;> rfl

/-- C2: for every pose result and every connection pair of the fixed
list, the segment for that connection is drawn iff both endpoint
landmarks exist and both visibilities are strictly greater than `0.3`;
in particular, an endpoint with visibility exactly `0.3` suppresses the
segment (exclusive threshold). -/
theorem poseConnection_visibility_threshold (lms : List Landmark) (w h : ℚ)
    (c : Nat × Nat) (hc : c ∈ POSE_CONNECTIONS) :
    (poseConnectionOps lms w h c ≠ [] ↔
      ∃ s e, lms.get? c.1 = some s ∧ lms.get? c.2 = some e ∧
        (3 / 10 : ℚ) < s.visibility ∧ (3 / 10 : ℚ) < e.visibility) ∧
      (∀ s, lms.get? c.1 = some s → s.visibility = 3 / 10 →
        poseConnectionOps lms w h c = []) := by
  clear hc
  constructor
  · constructor
    · intro hne
      cases h1 : lms.get? c.1 with
      | none => exact absurd (poseConnectionOps_get_none_left lms w h c h1) hne
      | some s =>
        cases h2 : lms.get? c.2 with
        | none => exact absurd (poseConnectionOps_get_none_right lms w h c h2) hne
        | some e =>
          rw [poseConnectionOps_get_some lms w h c s e h1 h2] at hne
          by_cases hv : (3 / 10 : ℚ) < s.visibility ∧ (3 / 10 : ℚ) < e.visibility
          · exact ⟨s, e, rfl, rfl, hv.1, hv.2⟩
          · rw [if_neg hv] at hne
            exact absurd rfl hne
    · rintro ⟨s, e, h1, h2, hs, he⟩
      rw [poseConnectionOps_get_some lms w h c s e h1 h2, if_pos ⟨hs, he⟩]
      simp
  · intro s h1 hs
    cases h2 : lms.get? c.2 with
    | none => exact poseConnectionOps_get_none_right lms w h c h2
    | some e =>
      rw [poseConnectionOps_get_some lms w h c s e h1 h2, if_neg]
      rintro ⟨ha, _⟩
      rw [hs] at ha
      exact lt_irrefl _ ha

/-- Witness for `poseConnection_visibility_threshold` at the shoulder
connection `(11, 12)` over thirteen fully visible landmarks. -/
theorem poseConnection_visibility_threshold_witness :
    ((11, 12) : Nat × Nat) ∈ POSE_CONNECTIONS ∧
      ((poseConnectionOps demoPoseLms 640 480 (11, 12) ≠ [] ↔
        ∃ s e, demoPoseLms.get? 11 = some s ∧ demoPoseLms.get? 12 = some e ∧
          (3 / 10 : ℚ) < s.visibility ∧ (3 / 10 : ℚ) < e.visibility) ∧
        (∀ s, demoPoseLms.get? 11 = some s → s.visibility = 3 / 10 →
          poseConnectionOps demoPoseLms 640 480 (11, 12) = [])) :=
  ⟨by decide,
    poseConnection_visibility_threshold demoPoseLms 640 480 (11, 12) (by decide)⟩

/-- C3: with a module's show flag off, its draw routine issues zero
operations against the display surface, whatever the cached results
hold — for pose, face, and hands alike. -/
theorem disabled_modules_draw_nothing (d : Bool) (pl fl : Option (List Landmark))
    (hl : List (List Landmark)) (w h : ℚ) :
    drawPoseLandmarks false d pl w h = [] ∧ drawFaceLandmarks false fl w h = [] ∧
      drawHandsLandmarks false d hl w h = [] := by
  refine ⟨?_, ?_, ?_⟩
  · cases pl <;> simp [drawPoseLandmarks]
  · cases fl <;> simp [drawFaceLandmarks]
  · simp [drawHandsLandmarks]

/-- C4 counterexample: from the initial scheduler state
(`lastFrameTime = 0`), the simulated ticks at `0, 10, 20, 40` ms
perform actions `[], [], [], [render, dispatch×3]` — the tick at `0` is
skipped (its elapsed time `0 - 0` is below the interval), refuting the
claim that the ticks at `0` and `40` are both accepted. -/
theorem scheduler_sim_first_tick_skipped :
    runTicks simState [0, 10, 20, 40] =
      [[], [], [],
        [TickAction.render, TickAction.sendPose, TickAction.sendFace,
          TickAction.sendHands]] := by
  norm_num [runTicks, processFrame, frameInterval, tickBody, simState]

/-- C4 amended: a tick with elapsed time below `1000/30` ms performs no
render and no dispatch and leaves the state unchanged (it only
reschedules); on the simulated timestamps `0, 10, 20, 40` from the
initial state, only the tick at `40` is accepted, because the
constructor's `lastFrameTime = 0` makes the tick at `0` report zero
elapsed time. -/
theorem scheduler_skip_amended :
    (∀ (s : TrackerState) (now : ℚ) (fa : Option Nat), s.isTracking = true →
      now - s.lastFrameTime < frameInterval →
      (processFrame s now fa).actions = [] ∧ (processFrame s now fa).state = s ∧
        (processFrame s now fa).rescheduled = true) ∧
      runTicks simState [0, 10, 20, 40] =
        [[], [], [],
          [TickAction.render, TickAction.sendPose, TickAction.sendFace,
            TickAction.sendHands]] := by
  constructor
  · intro s now fa ht hlt
    refine ⟨?_, ?_, ?_⟩ <;> simp [processFrame, ht, hlt]
  · norm_num [runTicks, processFrame, frameInterval, tickBody, simState]

/-- Witness for `scheduler_skip_amended` at the tick `now = 10` from
the initial state. -/
theorem scheduler_skip_amended_witness :
    simState.isTracking = true ∧ (10 : ℚ) - simState.lastFrameTime < frameInterval ∧
      ((processFrame simState 10 none).actions = [] ∧
        (processFrame simState 10 none).state = simState ∧
        (processFrame simState 10 none).rescheduled = true) :=
  ⟨rfl, by norm_num [simState, frameInterval],
    scheduler_skip_amended.1 simState 10 none rfl
      (by norm_num [simState, frameInterval])⟩

/-- C5 counterexample: a face completion carrying one face and a hands
completion carrying one hand each push no status at all — only the pose
completion recomputes status, refuting the claim that all three
completion callbacks do. -/
theorem face_hands_completions_push_no_status :
    (onFaceResults cbDemo (some [[demoLm]])).statusPushes = [] ∧
      (onHandsResults cbDemo (some [[demoLm]])).statusPushes = [] :=
  ⟨rfl, rfl⟩

/-- C5 amended: of the three completion callbacks, only `onPoseResults`
recomputes the derived status (via `updateTrackingStatus` on the
updated caches) and pushes it to the status display; `onFaceResults`
and `onHandsResults` update their caches without pushing any status. -/
theorem status_push_only_on_pose (s : CbState) (r : PosePayload)
    (mfl mhl : Option (List (List Landmark))) :
    (onPoseResults s r).statusPushes = updateTrackingStatus (onPoseResults s r).state ∧
      (onFaceResults s mfl).statusPushes = [] ∧
      (onHandsResults s mhl).statusPushes = [] :=
  ⟨rfl, rfl, rfl⟩

/-- C6 counterexample: with the hands status element showing `error`
after a hands setup failure, the next pose completion (even an empty
one, with the hands cache empty) pushes `searching` for hands — the
`error` status does not survive a subsequent detector completion,
refuting the claim's permanence clause. -/
theorem error_status_overwritten_by_completion :
    domAfterHandsFailure ModuleId.hands = some ⟨Status.error, Color.red⟩ ∧
      applyStatusPushes domAfterHandsFailure
          (onPoseResults cbAfterHandsFailure emptyPosePayload).statusPushes
          ModuleId.hands =
        some ⟨Status.searching, Color.yellow⟩ :=
  ⟨rfl, rfl⟩

/-- C6 amended: a pose completion pushes, for each module, `detected`
exactly when that module's cache is non-empty and `searching`
otherwise; no completion ever pushes `error` (so `error` arises only
from setup failure); but `error` is not permanent — the next pose
completion overwrites a module's `error` display with the derived
`searching`/`detected` (here: `searching` for hands with an empty hands
cache). -/
theorem status_transitions_amended :
    (∀ (s : CbState) (r : PosePayload),
      (onPoseResults s r).statusPushes =
        [(ModuleId.pose,
            if r.poseLandmarks.isSome then Status.detected else Status.searching),
          (ModuleId.face,
            if s.faceLandmarks.isSome then Status.detected else Status.searching),
          (ModuleId.hands,
            if 0 < s.handsLandmarks.length then Status.detected
            else Status.searching)]) ∧
      (∀ (s : CbState) (m : ModuleId) (st : Status),
        (m, st) ∈ updateTrackingStatus s → st ≠ Status.error) ∧
      (∀ (dom : ModuleId → Option StatusElement) (e : StatusElement) (s : CbState)
        (r : PosePayload), dom ModuleId.hands = some e → s.handsLandmarks = [] →
        applyStatusPushes dom (onPoseResults s r).statusPushes ModuleId.hands =
          some ⟨Status.searching, Color.yellow⟩) := by
  refine ⟨?_, ?_, ?_⟩
  · intro s r
    rfl
  · intro s m st hmem
    simp [updateTrackingStatus] at hmem
    rcases hmem with ⟨_, h⟩ | ⟨_, h⟩ | ⟨_, h⟩ <;> subst h <;> split <;> simp
  · intro dom e s r hd hemp
    simp [onPoseResults, updateTrackingStatus, applyStatusPushes, updateStatus,
      statusColor, hemp, hd]

/-- Witness for `status_transitions_amended` on the concrete
hands-setup-failure scenario. -/
theorem status_transitions_amended_witness :
    domAfterHandsFailure ModuleId.hands = some ⟨Status.error, Color.red⟩ ∧
      cbAfterHandsFailure.handsLandmarks = [] ∧
      applyStatusPushes domAfterHandsFailure
          (onPoseResults cbAfterHandsFailure emptyPosePayload).statusPushes
          ModuleId.hands =
        some ⟨Status.searching, Color.yellow⟩ :=
  ⟨rfl, rfl,
    status_transitions_amended.2.2 domAfterHandsFailure ⟨Status.error, Color.red⟩
      cbAfterHandsFailure emptyPosePayload rfl rfl⟩

/-- With the hands adapter null, the tick body never dispatches to it. -/
theorem sendHands_not_in_tickBody (s : TrackerState) (h : s.hands = false) :
    TickAction.sendHands ∉ tickBody s := by
  unfold tickBody
  split_ifs <;> simp_all

/-- With the face adapter null, the tick body never dispatches to it. -/
theorem sendFace_not_in_tickBody (s : TrackerState) (h : s.faceMesh = false) :
    TickAction.sendFace ∉ tickBody s := by
  unfold tickBody
  split_ifs <;> simp_all

/-- C7 counterexample: when `setupPose` fails, its catch clause
rethrows, so `setupMediaPipeSequentially` aborts before `setupFaceMesh`
and `setupHands` ever run — refuting the claim that a setup failure of
any one module, including pose, leaves initialization of the other two
running to completion. -/
theorem pose_setup_failure_aborts_others :
    (setupSequentially true false false).1.faceSetupRan = false ∧
      (setupSequentially true false false).1.handsSetupRan = false ∧
      (setupSequentially true false false).2 = true :=
  ⟨rfl, rfl, rfl⟩

/-- C7 amended: a setup failure of face or hands disables that module
alone (adapter null, show flag cleared, `error` pushed), later ticks
never dispatch to a module whose adapter is null, and the remaining
setups still run to completion; a pose setup failure, however, rethrows
and aborts initialization — face and hands setup never run. -/
theorem setup_failure_amended :
    (∀ (ts : TrackerState) (now : ℚ) (fa : Option Nat),
      (ts.hands = false → TickAction.sendHands ∉ (processFrame ts now fa).actions) ∧
        (ts.faceMesh = false →
          TickAction.sendFace ∉ (processFrame ts now fa).actions)) ∧
      ((setupSequentially false false true).1.hands = false ∧
        (setupSequentially false false true).1.showHands = false ∧
        (ModuleId.hands, Status.error) ∈ (setupSequentially false false true).1.statuses ∧
        (setupSequentially false false true).1.pose = true ∧
        (setupSequentially false false true).1.faceMesh = true ∧
        (ModuleId.pose, Status.active) ∈ (setupSequentially false false true).1.statuses ∧
        (ModuleId.face, Status.active) ∈ (setupSequentially false false true).1.statuses ∧
        (setupSequentially false false true).2 = false) ∧
      ((setupSequentially false true false).1.faceMesh = false ∧
        (setupSequentially false true false).1.showFace = false ∧
        (ModuleId.face, Status.error) ∈ (setupSequentially false true false).1.statuses ∧
        (setupSequentially false true false).1.pose = true ∧
        (setupSequentially false true false).1.hands = true ∧
        (setupSequentially false true false).1.handsSetupRan = true ∧
        (setupSequentially false true false).2 = false) ∧
      (∀ ff hf : Bool, (setupSequentially true ff hf).2 = true ∧
        (setupSequentially true ff hf).1.faceSetupRan = false ∧
        (setupSequentially true ff hf).1.handsSetupRan = false ∧
        (setupSequentially true ff hf).1.pose = false) := by
  refine ⟨?_, by decide, by decide, by decide⟩
  intro ts now fa
  constructor
  · intro h
    unfold processFrame
    split_ifs
    · simp
    · simp
    · cases fa with
      | none => exact sendHands_not_in_tickBody _ h
      | some k =>
        intro hmem
        rcases List.mem_append.mp hmem with hin | hin
        · exact sendHands_not_in_tickBody _ h (List.take_subset k _ hin)
        · simp at hin
  · intro h
    unfold processFrame
    split_ifs
    · simp
    · simp
    · cases fa with
      | none => exact sendFace_not_in_tickBody _ h
      | some k =>
        intro hmem
        rcases List.mem_append.mp hmem with hin | hin
        · exact sendFace_not_in_tickBody _ h (List.take_subset k _ hin)
        · simp at hin

/-- Witness for `setup_failure_amended`: after a hands setup failure,
the tick at `40` ms never dispatches to the hands adapter. -/
theorem setup_failure_amended_witness :
    (trackerOfInit (setupSequentially false false true).1 0 true).hands = false ∧
      TickAction.sendHands ∉
        (processFrame (trackerOfInit (setupSequentially false false true).1 0 true)
          40 none).actions :=
  ⟨rfl,
    (setup_failure_amended.1
      (trackerOfInit (setupSequentially false false true).1 0 true) 40 none).1 rfl⟩

/-- C8: an exception thrown inside a tick's try block (after any number
of completed actions) is caught and logged, and the tick still calls
`requestAnimationFrame`, so the next tick's eligibility check runs; the
loop stops only through the `isTracking` flag checked at the top of
each tick. -/
theorem tick_exception_loop_continues (s : TrackerState) (now : ℚ) (k : Nat) :
    (s.isTracking = true →
      (processFrame s now (some k)).rescheduled = true ∧
        (frameInterval ≤ now - s.lastFrameTime →
          TickAction.logError ∈ (processFrame s now (some k)).actions)) ∧
      (s.isTracking = false → (processFrame s now (some k)).rescheduled = false) := by
  constructor
  · intro ht
    by_cases hlt : now - s.lastFrameTime < frameInterval
    · refine ⟨by simp [processFrame, ht, hlt], ?_⟩
      intro hge
      exact absurd hlt (not_lt.mpr hge)
    · refine ⟨by simp [processFrame, ht, hlt], ?_⟩
      intro _
      simp [processFrame, ht, hlt]
  · intro ht
    simp [processFrame, ht]

/-- Witness for `tick_exception_loop_continues`: a tick at `40` ms that
throws after one action still logs and reschedules. -/
theorem tick_exception_loop_continues_witness :
    simState.isTracking = true ∧ frameInterval ≤ (40 : ℚ) - simState.lastFrameTime ∧
      (processFrame simState 40 (some 1)).rescheduled = true ∧
      TickAction.logError ∈ (processFrame simState 40 (some 1)).actions :=
  ⟨rfl, by norm_num [simState, frameInterval],
    ((tick_exception_loop_continues simState 40 1).1 rfl).1,
    ((tick_exception_loop_continues simState 40 1).1 rfl).2
      (by norm_num [simState, frameInterval])⟩

/-- C9: when no status element exists for the addressed module,
`updateStatus` completes as a pure no-op on the display — for every
module name and every status value. -/
theorem updateStatus_absent_element_noop (dom : ModuleId → Option StatusElement)
    (type : ModuleId) (status : Status) (h : dom type = none) :
    updateStatus dom type status = dom := by
  funext m
  unfold updateStatus
  by_cases hm : m = type
  · subst hm
    rw [if_pos rfl, h]
  · rw [if_neg hm]

/-- Witness for `updateStatus_absent_element_noop` on the headless DOM. -/
theorem updateStatus_absent_element_noop_witness :
    headlessDom ModuleId.pose = none ∧
      updateStatus headlessDom ModuleId.pose Status.active = headlessDom :=
  ⟨rfl, updateStatus_absent_element_noop headlessDom ModuleId.pose Status.active rfl⟩

/-- C10: after any hands completion the hands cache equals the raw
payload's array or `[]` when the field is absent — always a list, never
null — so the status derivation reading its length is total (it always
produces its three entries); and after any face completion the face
cache holds the first face of the payload, or is absent when the
payload carries none. -/
theorem result_cache_shapes (s : CbState) (mhl mfl : Option (List (List Landmark))) :
    (onHandsResults s mhl).state.handsLandmarks = mhl.getD [] ∧
      (onFaceResults s mfl).state.faceLandmarks = mfl.bind List.head? ∧
      (updateTrackingStatus (onHandsResults s mhl).state).length = 3 :=
  ⟨rfl, rfl, rfl⟩

end FBT
